import Mathlib

set_option maxRecDepth 8000

/-!
Verification of the markdown-proxy Lambda handler (src/index.mjs).

The whole program is one handler function.  Text is modelled as `List Char`
(JavaScript strings; one `Char` per UTF-16 code unit of the inputs that
occur here).  JSON values are modelled by the inductive `Json`; `parseJson`
embeds `JSON.parse` (numeric literals are accepted with fraction/exponent
syntax but their value is modelled by the integer part, which no control
path of this program depends on), and `stringifyJson` embeds
`JSON.stringify`.  IEEE-754 arithmetic in `Math.floor(maxChars * 0.6)` and
`Math.floor(maxChars * 0.2)` is idealised as exact rational arithmetic,
i.e. `maxChars * 6 / 10` and `maxChars * 2 / 10` in `Nat`.
-/

/-- JavaScript strings, one entry per code unit. -/
abbrev Str := List Char

/-- Literal helper: a Lean string literal viewed as a `Str`. -/
def lit (s : String) : Str := s.toList

/-- JSON values as produced by `JSON.parse`.  Object member lists keep
source order, as JavaScript objects do. -/
inductive Json where
  | null : Json
  | bool : Bool → Json
  | num : Int → Json
  | str : Str → Json
  | arr : List Json → Json
  | obj : List (Str × Json) → Json

/-- JSON insignificant whitespace accepted by `JSON.parse`. -/
def isJsonWs (c : Char) : Bool :=
  c = ' ' || c = '\t' || c = '\n' || c = '\r'

/-- Drop leading JSON whitespace. -/
def skipWs (s : Str) : Str := s.dropWhile isJsonWs

/-- Decimal digit test. -/
def isDigitCh (c : Char) : Bool := c.isDigit

/-- Hex digit value, if any (code-point arithmetic). -/
def hexVal (c : Char) : Option Nat :=
  let n := c.toNat
  if 48 ≤ n && n ≤ 57 then some (n - 48)
  else if 97 ≤ n && n ≤ 102 then some (n - 87)
  else if 65 ≤ n && n ≤ 70 then some (n - 55)
  else none

/-- Body of a JSON string literal after the opening quote: returns the
decoded contents and the remainder after the closing quote.  `\uXXXX`
escapes outside the valid scalar range decode to `Char.ofNat`'s default,
an approximation that no claim exercises. -/
def strBody (fuel : Nat) (s : Str) : Option (Str × Str) :=
  match fuel, s with
  | 0, _ => none
  | _, [] => none
  | f + 1, c :: rest =>
    if c = '"' then some ([], rest)
    else if c = '\\' then
      match rest with
      | [] => none
      | e :: rest2 =>
        let cont (d : Char) (r : Str) : Option (Str × Str) :=
          match strBody f r with
          | some (tail, r2) => some (d :: tail, r2)
          | none => none
        if e = '"' then cont '"' rest2
        else if e = '\\' then cont '\\' rest2
        else if e = '/' then cont '/' rest2
        else if e = 'b' then cont '\x08' rest2
        else if e = 'f' then cont '\x0c' rest2
        else if e = 'n' then cont '\n' rest2
        else if e = 'r' then cont '\r' rest2
        else if e = 't' then cont '\t' rest2
        else if e = 'u' then
          match rest2 with
          | h1 :: h2 :: h3 :: h4 :: rest3 =>
            match hexVal h1, hexVal h2, hexVal h3, hexVal h4 with
            | some a, some b, some c3, some d =>
              cont (Char.ofNat (((a * 16 + b) * 16 + c3) * 16 + d)) rest3
            | _, _, _, _ => none
          | _ => none
        else none
    else if c.toNat < 32 then none
    else
      match strBody f rest with
      | some (tail, r2) => some (c :: tail, r2)
      | none => none

/-- Longest digit run at the front. -/
def takeDigits (s : Str) : Str × Str :=
  (s.takeWhile isDigitCh, s.dropWhile isDigitCh)

/-- Digit run to a natural number, most significant first. -/
def digitsToNat : Str → Nat → Nat
  | [], acc => acc
  | c :: cs, acc => digitsToNat cs (10 * acc + (c.toNat - 48))

/-- Optional fraction part `.digits` of a JSON number (value discarded). -/
def skipFrac (s : Str) : Option Str :=
  match s with
  | '.' :: rest =>
    let (ds, r) := takeDigits rest
    if ds.isEmpty then none else some r
  | _ => some s

/-- Optional exponent part `[eE][+-]?digits` of a JSON number (value
discarded). -/
def skipExp (s : Str) : Option Str :=
  match s with
  | c :: rest =>
    if c = 'e' || c = 'E' then
      let rest2 := match rest with
        | d :: r2 => if d = '+' || d = '-' then r2 else rest
        | [] => rest
      let (ds, r) := takeDigits rest2
      if ds.isEmpty then none else some r
    else some (c :: rest)
  | [] => some []

/-- Unsigned part of a JSON number literal.  The grammar (no leading
zeros, optional fraction and exponent) follows `JSON.parse`; the modelled
value is the integer part. -/
def numMag (s : Str) : Option (Int × Str) :=
  match takeDigits s with
  | ([], _) => none
  | (d :: ds2, r0) =>
    if d = '0' && !ds2.isEmpty then none
    else
      match skipFrac r0 with
      | none => none
      | some r1 =>
        match skipExp r1 with
        | none => none
        | some r2 => some (Int.ofNat (digitsToNat (d :: ds2) 0), r2)

/-- JSON number literal with its optional leading minus. -/
def numTok (s : Str) : Option (Json × Str) :=
  match s with
  | '-' :: rest =>
    match numMag rest with
    | some (n, r) => some (Json.num (-n), r)
    | none => none
  | _ =>
    match numMag s with
    | some (n, r) => some (Json.num n, r)
    | none => none

mutual

/-- One JSON value starting at `s` (leading whitespace allowed), with the
unconsumed remainder.  Fuel-indexed; `parseJson` supplies ample fuel. -/
def jsonVal (fuel : Nat) (s : Str) : Option (Json × Str) :=
  match fuel with
  | 0 => none
  | f + 1 =>
    match skipWs s with
    | [] => none
    | c :: rest =>
      if c = '\x7b' then
        match skipWs rest with
        | d :: rest2 =>
          if d = '\x7d' then some (Json.obj [], rest2)
          else jsonMembers f (d :: rest2) []
        | [] => none
      else if c = '[' then
        match skipWs rest with
        | d :: rest2 =>
          if d = ']' then some (Json.arr [], rest2)
          else jsonItems f (d :: rest2) []
        | [] => none
      else if c = '"' then
        match strBody (rest.length + 1) rest with
        | some (body, rest2) => some (Json.str body, rest2)
        | none => none
      else if c = 't' then
        if (lit ("rue")).isPrefixOf rest then some (Json.bool true, rest.drop 3)
        else none
      else if c = 'f' then
        if (lit ("alse")).isPrefixOf rest then some (Json.bool false, rest.drop 4)
        else none
      else if c = 'n' then
        if (lit ("ull")).isPrefixOf rest then some (Json.null, rest.drop 3)
        else none
      else numTok (c :: rest)

/-- Array items after `[`, positioned at a value. -/
def jsonItems (fuel : Nat) (s : Str) (acc : List Json) : Option (Json × Str) :=
  match fuel with
  | 0 => none
  | f + 1 =>
    match jsonVal f s with
    | none => none
    | some (v, rest) =>
      match skipWs rest with
      | c :: rest2 =>
        if c = ',' then jsonItems f rest2 (v :: acc)
        else if c = ']' then some (Json.arr (acc.reverse ++ [v]), rest2)
        else none
      | [] => none

/-- Object members after `\x7b`, positioned at a key. -/
def jsonMembers (fuel : Nat) (s : Str) (acc : List (Str × Json)) :
    Option (Json × Str) :=
  match fuel with
  | 0 => none
  | f + 1 =>
    match skipWs s with
    | c :: rest =>
      if c = '"' then
        match strBody (rest.length + 1) rest with
        | some (key, rest2) =>
          match skipWs rest2 with
          | d :: rest3 =>
            if d = ':' then
              match jsonVal f rest3 with
              | some (v, rest4) =>
                match skipWs rest4 with
                | e :: rest5 =>
                  if e = ',' then jsonMembers f rest5 ((key, v) :: acc)
                  else if e = '\x7d' then
                    some (Json.obj (acc.reverse ++ [(key, v)]), rest5)
                  else none
                | [] => none
              | none => none
            else none
          | [] => none
        | none => none
      else none
    | [] => none

end

/-- `JSON.parse`: one value, then only trailing whitespace. -/
def parseJson (s : Str) : Option Json :=
  match jsonVal (2 * s.length + 4) s with
  | some (v, rest) => if skipWs rest = [] then some v else none
  | none => none

/-- Hex digit character for `\u00XX` escapes. -/
def hexDigit (n : Nat) : Char :=
  if n < 10 then Char.ofNat ('0'.toNat + n) else Char.ofNat ('a'.toNat + (n - 10))

/-- String-content escaping of `JSON.stringify`. -/
def escapeChars (s : Str) : Str :=
  match s with
  | [] => []
  | c :: rest =>
    let t := escapeChars rest
    if c = '"' then '\\' :: '"' :: t
    else if c = '\\' then '\\' :: '\\' :: t
    else if c = '\x08' then '\\' :: 'b' :: t
    else if c = '\t' then '\\' :: 't' :: t
    else if c = '\n' then '\\' :: 'n' :: t
    else if c = '\x0c' then '\\' :: 'f' :: t
    else if c = '\r' then '\\' :: 'r' :: t
    else if c.toNat < 32 then
      '\\' :: 'u' :: '0' :: '0' :: hexDigit (c.toNat / 16) :: hexDigit (c.toNat % 16) :: t
    else c :: t

/-- `JSON.stringify` of a string value. -/
def quoteJson (s : Str) : Str := '"' :: escapeChars s ++ ['"']

/-- Decimal digits of a natural number. -/
def natChars (n : Nat) : Str := Nat.toDigits 10 n

/-- Decimal rendering of an integer. -/
def intChars (i : Int) : Str :=
  if i < 0 then '-' :: natChars i.natAbs else natChars i.toNat

mutual

/-- `JSON.stringify` on modelled JSON values. -/
def stringifyJson : Json → Str
  | Json.null => lit ("null")
  | Json.bool b => if b then lit ("true") else lit ("false")
  | Json.num i => intChars i
  | Json.str s => quoteJson s
  | Json.arr xs => '[' :: stringifyItems xs ++ [']']
  | Json.obj ms => '\x7b' :: stringifyMembers ms ++ ['\x7d']

/-- Comma-separated array items. -/
def stringifyItems : List Json → Str
  | [] => []
  | [x] => stringifyJson x
  | x :: y :: rest => stringifyJson x ++ ',' :: stringifyItems (y :: rest)

/-- Comma-separated object members. -/
def stringifyMembers : List (Str × Json) → Str
  | [] => []
  | [(k, v)] => quoteJson k ++ ':' :: stringifyJson v
  | (k, v) :: m :: rest =>
    quoteJson k ++ ':' :: stringifyJson v ++ ',' :: stringifyMembers (m :: rest)

end

/-- Whitespace stripped by JavaScript `String.prototype.trim` (the code
points that occur in this program's inputs). -/
def isJsWs (c : Char) : Bool :=
  c = ' ' || c = '\t' || c = '\n' || c = '\r' || c = '\x0b' || c = '\x0c' || c = '\xa0'

/-- JavaScript `trim()`. -/
def trimJS (s : Str) : Str :=
  ((s.dropWhile isJsWs).reverse.dropWhile isJsWs).reverse

/-- Last-wins member lookup, matching JavaScript property semantics for
duplicate keys in an object literal produced by `JSON.parse`. -/
def lookupLast (ms : List (Str × Json)) (key : Str) : Option Json :=
  ms.foldl (fun acc kv => if kv.1 = key then some kv.2 else acc) none

/-- Property access `value.key` for the identifier keys this program reads:
defined members of objects, `undefined` (`none`) everywhere else. -/
def jsonField (j : Json) (key : Str) : Option Json :=
  match j with
  | Json.obj ms => lookupLast ms key
  | _ => none

/-- Element access `value[0]` as used on `parsed.choices`: array head,
object member `"0"`, first character of a string. -/
def jsonIndexZero (j : Json) : Option Json :=
  match j with
  | Json.arr (x :: _) => some x
  | Json.obj ms => lookupLast ms (lit ("0"))
  | Json.str (c :: _) => some (Json.str [c])
  | _ => none

/-- JavaScript truthiness of a parsed JSON value. -/
def jsTruthy (j : Json) : Bool :=
  match j with
  | Json.null => false
  | Json.bool b => b
  | Json.num i => i != 0
  | Json.str s => !s.isEmpty
  | Json.arr _ => true
  | Json.obj _ => true

/-- The optional chain `parsed.choices?.[0]?.delta?.content`. -/
def deltaContent (j : Json) : Option Json :=
  (jsonField j (lit ("choices"))).bind fun c =>
    (jsonIndexZero c).bind fun c0 =>
      (jsonField c0 (lit ("delta"))).bind fun d =>
        jsonField d (lit ("content"))

/-- The fixed event-data line tag `data: `. -/
def dataTag : Str := lit ("data: ")

/-- What one upstream line appends to the accumulated stream buffer
(body of the `for (const line of lines)` loop in `res.on('data')`). -/
def lineOutput (line : Str) : Str :=
  if dataTag.isPrefixOf line then
    let data := trimJS (line.drop 6)
    if data = lit ("[DONE]") then lit ("data: [DONE]\n\n")
    else if data.isEmpty then []
    else
      match parseJson data with
      | some parsed =>
        match deltaContent parsed with
        | some c =>
          if jsTruthy c then
            dataTag ++ stringifyJson (Json.obj [(lit ("content"), c)]) ++ lit ("\n\n")
          else []
        | none => []
      | none => []
  else []

/-- JavaScript `chunk.split('\n')`. -/
def splitLines (s : Str) : List Str :=
  match s with
  | [] => [[]]
  | c :: rest =>
    match splitLines rest with
    | hd :: tl => if c = '\n' then [] :: hd :: tl else (c :: hd) :: tl
    | [] => if c = '\n' then [[], []] else [[c]]

/-- One `res.on('data')` callback invocation: split the chunk into lines
and fold each line's output onto the buffer.  No partial-line state is
kept between chunks. -/
def feedChunk (buf : Str) (chunk : Str) : Str :=
  (splitLines chunk).foldl (fun b l => b ++ lineOutput l) buf

/-- The accumulated `streamResponse` buffer after a whole chunk sequence. -/
def runStream (chunks : List Str) : Str :=
  chunks.foldl feedChunk []

/-- Per-chunk output starting from an empty buffer. -/
def chunkOut (chunk : Str) : Str :=
  ((splitLines chunk).map lineOutput).flatten

/-- `estimateTokens`: `Math.ceil(text.length / 4)`. -/
def estimateTokens (text : Str) : Nat := (text.length + 3) / 4

/-- The fixed truncation marker. -/
def truncMarker : Str := lit ("\n\n[... middle section truncated for length ...]\n\n")

/-- `truncateContent`: identity within budget, otherwise head slice plus
marker plus tail slice.  `Math.floor(maxChars * 0.6)` and
`Math.floor(maxChars * 0.2)` are idealised as exact `Nat` arithmetic. -/
def truncateContent (content : Str) (maxTokens : Nat) : Str :=
  if estimateTokens content ≤ maxTokens then content
  else
    let maxChars := maxTokens * 4
    let firstPortion := maxChars * 6 / 10
    let lastPortion := maxChars * 2 / 10
    content.take firstPortion ++ truncMarker ++
      content.drop (content.length - lastPortion)

/-- `MAX_CONTENT_TOKENS`. -/
def MAX_CONTENT_TOKENS : Nat := 22000

/-- Number of start positions at which `pat` occurs in `text`. -/
def countSub (pat : Str) (text : Str) : Nat :=
  match text with
  | [] => if pat.isEmpty then 1 else 0
  | _ :: rest => (if pat.isPrefixOf text then 1 else 0) + countSub pat rest

/-- Substring test derived from `countSub`. -/
def containsSub (pat text : Str) : Bool := countSub pat text != 0

/-- The relay's response object `\x7bstatusCode, headers, body\x7d`. -/
structure RelayResponse where
  statusCode : Nat
  headers : List (String × String)
  body : Str
deriving DecidableEq

/-- The outbound `https.request` options plus the written payload. -/
structure OutboundCall where
  hostname : String
  path : String
  method : String
  contentType : String
  authorization : Str
  payload : Str
deriving DecidableEq

/-- What the handler's control flow settles on before any upstream event:
either a finished response, or an outbound network call is issued. -/
inductive Outcome where
  | response : RelayResponse → Outcome
  | network : OutboundCall → Outcome
deriving DecidableEq

/-- A thrown JavaScript error as observed by the outer catch.  The `stack`
field abstracts the runtime stack trace to its first line. -/
structure JsError where
  name : Str
  message : Str
  stack : Str
deriving DecidableEq

/-- `TypeError` from `estimateTokens(markdown)` when `markdown` is absent. -/
def typeErrorLengthUndefined : JsError :=
  { name := lit ("TypeError")
  , message := lit ("Cannot read properties of undefined (reading \x27length\x27)")
  , stack := lit ("TypeError: Cannot read properties of undefined (reading \x27length\x27)") }

/-- `TypeError` from `estimateTokens(markdown)` when `markdown` is `null`. -/
def typeErrorLengthNull : JsError :=
  { name := lit ("TypeError")
  , message := lit ("Cannot read properties of null (reading \x27length\x27)")
  , stack := lit ("TypeError: Cannot read properties of null (reading \x27length\x27)") }

/-- `TypeError` from destructuring a `null` parse result. -/
def typeErrorDestructureNull : JsError :=
  { name := lit ("TypeError")
  , message := lit ("Cannot destructure property \x27prompt\x27 of \x27parsedBody\x27 as it is null.")
  , stack := lit ("TypeError: Cannot destructure property \x27prompt\x27 of \x27parsedBody\x27 as it is null.") }

/-- `TypeError` from calling `.trim()` on a truthy non-string `prompt`. -/
def typeErrorPromptTrim : JsError :=
  { name := lit ("TypeError")
  , message := lit ("prompt.trim is not a function")
  , stack := lit ("TypeError: prompt.trim is not a function") }

/-- `TypeError` from calling `.trim()` on a truthy non-string `selectedText`. -/
def typeErrorSelectedTrim : JsError :=
  { name := lit ("TypeError")
  , message := lit ("selectedText.trim is not a function")
  , stack := lit ("TypeError: selectedText.trim is not a function") }

/-- `TypeError` from `content.substring` when truncation fires on an
array-valued `markdown`. -/
def typeErrorSubstring : JsError :=
  { name := lit ("TypeError")
  , message := lit ("content.substring is not a function")
  , stack := lit ("TypeError: content.substring is not a function") }

/-- The CORS preflight response (lines 36-44). -/
def corsPreflightResponse : RelayResponse :=
  { statusCode := 200
  , headers :=
      [ ("Access-Control-Allow-Origin", "*")
      , ("Access-Control-Allow-Methods", "POST, OPTIONS")
      , ("Access-Control-Allow-Headers", "Content-Type, Authorization") ]
  , body := [] }

/-- The JSON-error headers used by every non-preflight error branch. -/
def jsonCorsHeaders : List (String × String) :=
  [("Content-Type", "application/json"), ("Access-Control-Allow-Origin", "*")]

/-- The 400 response for an unparsable body (lines 53-60). -/
def invalidJsonResponse : RelayResponse :=
  { statusCode := 400
  , headers := jsonCorsHeaders
  , body := lit ("\x7b\"error\":\"Invalid JSON in request body\"\x7d") }

/-- The 400 response for a missing or blank prompt (lines 73-80). -/
def promptRequiredResponse : RelayResponse :=
  { statusCode := 400
  , headers := jsonCorsHeaders
  , body := lit ("\x7b\"error\":\"Prompt is required\"\x7d") }

/-- The 500 response for an absent `OPENAI_API_KEY` (lines 164-174). -/
def missingKeyResponse : RelayResponse :=
  { statusCode := 500
  , headers := jsonCorsHeaders
  , body := lit ("\x7b\"error\":\"Server configuration error\",\"details\":\"API key not configured\"\x7d") }

/-- The pass-through response for a non-200 upstream status (lines 206-217). -/
def upstreamErrorResponse (code : Nat) (errorBody : Str) : RelayResponse :=
  { statusCode := code
  , headers := jsonCorsHeaders
  , body := lit ("\x7b\"error\":\"OpenAI API error\",\"statusCode\":") ++ natChars code ++
      lit (",\"details\":") ++ quoteJson errorBody ++ ['\x7d'] }

/-- The 200 success response resolved in `res.on('end')` (lines 269-277). -/
def successResponse (buffer : Str) : RelayResponse :=
  { statusCode := 200
  , headers :=
      [ ("Content-Type", "text/event-stream")
      , ("Access-Control-Allow-Origin", "*")
      , ("Cache-Control", "no-cache") ]
  , body := buffer }

/-- The 500 response resolved in `res.on('error')` (lines 286-297). -/
def streamErrorResponse (message name : Str) : RelayResponse :=
  { statusCode := 500
  , headers := jsonCorsHeaders
  , body := lit ("\x7b\"error\":\"OpenAI API error\",\"details\":") ++ quoteJson message ++
      lit (",\"errorName\":") ++ quoteJson name ++ ['\x7d'] }

/-- The 500 response resolved in `req.on('error')` (lines 307-319).
A missing `err.code` is omitted by `JSON.stringify`. -/
def transportErrorResponse (message name : Str) (code : Option Str) : RelayResponse :=
  { statusCode := 500
  , headers := jsonCorsHeaders
  , body := lit ("\x7b\"error\":\"Request failed\",\"details\":") ++ quoteJson message ++
      lit (",\"errorName\":") ++ quoteJson name ++
      (match code with
       | some c => lit (",\"errorCode\":") ++ quoteJson c
       | none => []) ++ ['\x7d'] }

/-- The 500 response resolved when `req.write` throws (lines 338-348). -/
def writeErrorResponse (message : Str) : RelayResponse :=
  { statusCode := 500
  , headers := jsonCorsHeaders
  , body := lit ("\x7b\"error\":\"Failed to send request\",\"details\":") ++ quoteJson message ++ ['\x7d'] }

/-- The outer catch-all 500 response (lines 358-370). -/
def catchAllResponse (e : JsError) : RelayResponse :=
  { statusCode := 500
  , headers := jsonCorsHeaders
  , body := lit ("\x7b\"error\":\"Internal server error\",\"details\":") ++ quoteJson e.message ++
      lit (",\"errorName\":") ++ quoteJson e.name ++
      lit (",\"stack\":") ++ quoteJson e.stack ++ ['\x7d'] }

/-- The inbound trigger event (only the fields the handler reads). -/
structure Event where
  httpMethod : String
  path : String
  body : Option Str

/-- Process environment: the one secret the handler reads. -/
structure Env where
  openaiApiKey : Option Str

/-- `event.body || '\x7b\x7d'`: absent, null and empty bodies fall back to
the literal two-character object text. -/
def effectiveBody (b : Option Str) : Str :=
  match b with
  | none => lit ("\x7b\x7d")
  | some s => if s.isEmpty then lit ("\x7b\x7d") else s

mutual

/-- Template-string conversion `String(value)` for the values that can
reach `processedMarkdown` interpolation (strings are the only case any
verified path exercises; the rest follow JavaScript coercion). -/
def jsToTemplate (j : Json) : Str :=
  match j with
  | Json.null => lit ("null")
  | Json.bool b => if b then lit ("true") else lit ("false")
  | Json.num i => intChars i
  | Json.str s => s
  | Json.obj _ => lit ("[object Object]")
  | Json.arr xs => templateItems xs

/-- `Array.prototype.toString`: comma join, with null entries blank. -/
def templateItems (xs : List Json) : Str :=
  match xs with
  | [] => []
  | [x] => (match x with | Json.null => [] | _ => jsToTemplate x)
  | x :: y :: rest =>
    (match x with | Json.null => [] | _ => jsToTemplate x) ++ ',' :: templateItems (y :: rest)

end

/-- The check `!prompt || prompt.trim() === ''` (lines 71-81): `.ok none`
takes the 400 branch, `.ok (some p)` proceeds with the string prompt, and
a truthy non-string throws on `.trim`. -/
def promptCheck (prompt : Option Json) : Except JsError (Option Str) :=
  match prompt with
  | none => Except.ok none
  | some Json.null => Except.ok none
  | some (Json.bool b) => if b then Except.error typeErrorPromptTrim else Except.ok none
  | some (Json.num n) => if n = 0 then Except.error typeErrorPromptTrim else Except.ok none
  | some (Json.str p) => if (trimJS p).isEmpty then Except.ok none else Except.ok (some p)
  | some _ => Except.error typeErrorPromptTrim

/-- Lines 114-129: `estimateTokens(markdown)` — which throws when
`markdown` is absent or null — followed by conditional truncation.  A
non-string `markdown` has `.length` `undefined` (so the `NaN` comparison
skips truncation) except arrays, whose numeric length can trigger
truncation and then throw on `.substring`. -/
def markdownEval (md : Option Json) : Except JsError Str :=
  match md with
  | none => Except.error typeErrorLengthUndefined
  | some Json.null => Except.error typeErrorLengthNull
  | some (Json.str m) =>
    Except.ok (if estimateTokens m > MAX_CONTENT_TOKENS then truncateContent m MAX_CONTENT_TOKENS else m)
  | some (Json.arr xs) =>
    if (xs.length + 3) / 4 > MAX_CONTENT_TOKENS then Except.error typeErrorSubstring
    else Except.ok (jsToTemplate (Json.arr xs))
  | some j => Except.ok (jsToTemplate j)

/-- The mode test `selectedText && selectedText.trim()` (line 134):
`.ok (some s)` selects selection mode, `.ok none` document mode, and a
truthy non-string throws on `.trim`. -/
def selectedEval (sel : Option Json) : Except JsError (Option Str) :=
  match sel with
  | none => Except.ok none
  | some Json.null => Except.ok none
  | some (Json.bool b) => if b then Except.error typeErrorSelectedTrim else Except.ok none
  | some (Json.num n) => if n = 0 then Except.error typeErrorSelectedTrim else Except.ok none
  | some (Json.str s) => if (trimJS s).isEmpty then Except.ok none else Except.ok (some s)
  | some _ => Except.error typeErrorSelectedTrim

/-- The fixed system prompt. -/
def systemPromptText : Str :=
  lit ("You are an AI writing assistant that helps edit and improve text.")

/-- The user message of lines 134-140: selection mode quotes the raw
selected text, document mode states the request then the document. -/
def buildUserPrompt (selected : Option Str) (prompt processed : Str) : Str :=
  match selected with
  | some s =>
    lit ("Edit the selected text: \"") ++ s ++ lit ("\"\n\nUser request: ") ++
      prompt ++ lit ("\n\nFull document context: ") ++ processed
  | none =>
    lit ("Edit this document based on the request: ") ++ prompt ++
      lit ("\n\nDocument: ") ++ processed

/-- `JSON.stringify` of the fixed upstream payload object (lines 143-152),
with keys in insertion order. -/
def buildPayload (userPrompt : Str) : Str :=
  lit ("\x7b\"model\":\"gpt-4o\",\"messages\":[\x7b\"role\":\"system\",\"content\":") ++
    quoteJson systemPromptText ++
    lit ("\x7d,\x7b\"role\":\"user\",\"content\":") ++ quoteJson userPrompt ++
    lit ("\x7d],\"stream\":true,\"max_tokens\":4000,\"temperature\":0.3\x7d")

/-- The `https.request` issued at line 180. -/
def mkOutboundCall (key : Str) (payload : Str) : OutboundCall :=
  { hostname := "api.openai.com"
  , path := "/v1/chat/completions"
  , method := "POST"
  , contentType := "application/json"
  , authorization := lit ("Bearer ") ++ key
  , payload := payload }

/-- The body of the handler's `try` block (lines 47-350): parse, validate
the prompt, budget the markdown, choose the prompt mode, build the
payload, then either fail on the missing credential or issue the call. -/
def handlerTry (ev : Event) (env : Env) : Except JsError Outcome :=
  match parseJson (effectiveBody ev.body) with
  | none => Except.ok (Outcome.response invalidJsonResponse)
  | some Json.null => Except.error typeErrorDestructureNull
  | some parsed =>
    match promptCheck (jsonField parsed (lit ("prompt"))) with
    | Except.error e => Except.error e
    | Except.ok none => Except.ok (Outcome.response promptRequiredResponse)
    | Except.ok (some p) =>
      match markdownEval (jsonField parsed (lit ("markdown"))) with
      | Except.error e => Except.error e
      | Except.ok processed =>
        match selectedEval (jsonField parsed (lit ("selectedText"))) with
        | Except.error e => Except.error e
        | Except.ok selOpt =>
          match env.openaiApiKey with
          | none => Except.ok (Outcome.response missingKeyResponse)
          | some k =>
            if k.isEmpty then Except.ok (Outcome.response missingKeyResponse)
            else Except.ok (Outcome.network
              (mkOutboundCall k (buildPayload (buildUserPrompt selOpt p processed))))

/-- The whole handler up to its first settled outcome: OPTIONS preflight,
then the `try` block, with the outer catch turning any thrown error into
the catch-all 500. -/
def handler (ev : Event) (env : Env) : Outcome :=
  if ev.httpMethod = "OPTIONS" then Outcome.response corsPreflightResponse
  else
    match handlerTry ev env with
    | Except.ok o => o
    | Except.error e => Outcome.response (catchAllResponse e)

/-- Every settled outcome the handler can produce (including the upstream
callbacks' responses, which carry their own headers) must include the CORS
allow-origin header; network outcomes are vacuously fine. -/
def corsOk (o : Outcome) : Bool :=
  match o with
  | Outcome.response r => r.headers.contains ("Access-Control-Allow-Origin", "*")
  | Outcome.network _ => true

/-- A chunk made of whole newline-terminated lines. -/
def joinNl (ls : List Str) : Str := (ls.map (fun l => l ++ ['\n'])).flatten

/-- The canonical well-formed content event line of the spec's test. -/
def goodLine : Str := lit ("data: \x7b\"choices\":[\x7b\"delta\":\x7b\"content\":\"hi\"\x7d\x7d]\x7d")

/-- The terminal sentinel line. -/
def doneLine : Str := lit ("data: [DONE]")

/-- The output buffer the spec requires for `goodLine` then `doneLine`. -/
def expectedBuffer : Str := lit ("data: \x7b\"content\":\"hi\"\x7d\n\ndata: [DONE]\n\n")

/-- The reframed terminal frame alone. -/
def doneFrame : Str := lit ("data: [DONE]\n\n")

/-- An over-budget content sample that itself starts with the truncation
marker, exercising duplicate markers after truncation. -/
def oversizedContent : Str := truncMarker ++ List.replicate 36 'a'

/-- A well-formed request body used to instantiate handler theorems. -/
def sampleBody : Str := lit ("\x7b\"prompt\":\"hi\",\"markdown\":\"doc\"\x7d")

/-- Its parse result. -/
def sampleParsed : Json :=
  Json.obj [(lit ("prompt"), Json.str (lit ("hi"))), (lit ("markdown"), Json.str (lit ("doc")))]

/-- A request body whose prompt is whitespace only. -/
def blankPromptBody : Str := lit ("\x7b\"prompt\":\"  \",\"markdown\":\"d\"\x7d")

/-- Its parse result. -/
def blankPromptParsed : Json :=
  Json.obj [(lit ("prompt"), Json.str (lit ("  "))), (lit ("markdown"), Json.str (lit ("d")))]

/-- A request body with a prompt but no markdown field. -/
def noMarkdownBody : Str := lit ("\x7b\"prompt\":\"hi\"\x7d")

/-- Its parse result. -/
def noMarkdownParsed : Json := Json.obj [(lit ("prompt"), Json.str (lit ("hi")))]

/-- A POST event carrying the given body. -/
def postEvent (b : Option Str) : Event := { httpMethod := "POST", path := "/", body := b }

/-- Environment with no credential configured. -/
def envNoKey : Env := { openaiApiKey := none }

/-- Environment with a credential configured. -/
def envWithKey : Env := { openaiApiKey := some (lit ("sk-test")) }

/-! ## Stream reframer lemmas -/

theorem lineOutput_nil : lineOutput [] = [] := by decide

theorem foldl_append_out (g : Str → Str) :
    ∀ (l : List Str) (buf : Str),
      l.foldl (fun b x => b ++ g x) buf = buf ++ (l.map g).flatten := by
  intro l
  induction l with
  | nil => intro buf; simp
  | cons a t ih =>
    intro buf
    simp only [List.foldl_cons, List.map_cons, List.flatten_cons]
    rw [ih, List.append_assoc]

theorem feedChunk_out (buf chunk : Str) : feedChunk buf chunk = buf ++ chunkOut chunk := by
  unfold feedChunk chunkOut
  exact foldl_append_out lineOutput (splitLines chunk) buf

theorem runStream_aux (cs : List Str) :
    ∀ buf, cs.foldl feedChunk buf = buf ++ (cs.map chunkOut).flatten := by
  induction cs with
  | nil => intro buf; simp
  | cons c t ih =>
    intro buf
    simp only [List.foldl_cons, List.map_cons, List.flatten_cons]
    rw [feedChunk_out, ih, List.append_assoc]

theorem runStream_flatten (cs : List Str) : runStream cs = (cs.map chunkOut).flatten := by
  unfold runStream
  rw [runStream_aux]
  simp

theorem splitLines_ne_nil (s : Str) : splitLines s ≠ [] := by
  cases s with
  | nil => simp [splitLines]
  | cons c rest =>
    rcases h : splitLines rest with _ | ⟨hd, tl⟩ <;>
      simp [splitLines, h] <;> split <;> simp

theorem splitLines_no_nl (l : Str) (h : '\n' ∉ l) : splitLines l = [l] := by
  induction l with
  | nil => rfl
  | cons c rest ih =>
    have hc : c ≠ '\n' := fun e => h (e ▸ List.mem_cons_self c rest)
    have hr : '\n' ∉ rest := fun m => h (List.mem_cons_of_mem c m)
    simp [splitLines, ih hr, hc]

theorem splitLines_cons_nl (l rest : Str) (h : '\n' ∉ l) :
    splitLines (l ++ '\n' :: rest) = l :: splitLines rest := by
  induction l with
  | nil =>
    rcases hs : splitLines rest with _ | ⟨hd, tl⟩
    · exact absurd hs (splitLines_ne_nil rest)
    · simp [splitLines, hs]
  | cons c l2 ih =>
    have hc : c ≠ '\n' := fun e => h (e ▸ List.mem_cons_self c l2)
    have hl : '\n' ∉ l2 := fun m => h (List.mem_cons_of_mem c m)
    have ih2 := ih hl
    rcases hs : splitLines rest with _ | ⟨hd, tl⟩
    · exact absurd hs (splitLines_ne_nil rest)
    · rw [hs] at ih2
      simp [splitLines, ih2, hc, hs]

theorem chunkOut_cons_nl (l rest : Str) (h : '\n' ∉ l) :
    chunkOut (l ++ '\n' :: rest) = lineOutput l ++ chunkOut rest := by
  unfold chunkOut
  rw [splitLines_cons_nl l rest h]
  simp

theorem joinNl_cons (l : Str) (t : List Str) :
    joinNl (l :: t) = l ++ '\n' :: joinNl t := by
  simp [joinNl]

theorem chunkOut_joinNl (ls : List Str) (h : ∀ l ∈ ls, '\n' ∉ l) :
    chunkOut (joinNl ls) = (ls.map lineOutput).flatten := by
  induction ls with
  | nil => simp [joinNl, chunkOut, splitLines, lineOutput_nil]
  | cons l t ih =>
    have h1 : '\n' ∉ l := h l (List.mem_cons_self l t)
    have h2 : ∀ x ∈ t, '\n' ∉ x := fun x hx => h x (List.mem_cons_of_mem l hx)
    rw [joinNl_cons, chunkOut_cons_nl l (joinNl t) h1, ih h2]
    simp

theorem runStream_joinNl (css : List (List Str)) (h : ∀ l ∈ css.flatten, '\n' ∉ l) :
    runStream (css.map joinNl) = ((css.flatten).map lineOutput).flatten := by
  induction css with
  | nil => simp [runStream]
  | cons ls t ih =>
    have h1 : ∀ l ∈ ls, '\n' ∉ l := by
      intro l hl
      exact h l (by simp [List.flatten_cons, hl])
    have h2 : ∀ l ∈ t.flatten, '\n' ∉ l := by
      intro l hl
      exact h l (by simp [List.flatten_cons, hl])
    rw [List.map_cons, runStream_flatten, List.map_cons, List.flatten_cons,
      ← runStream_flatten, chunkOut_joinNl ls h1, ih h2]
    simp

/-! ## Marker occurrence lemmas -/

theorem countSub_pos_of_isPrefixOf (p t : Str) (h : p.isPrefixOf t = true) :
    1 ≤ countSub p t := by
  cases t with
  | nil =>
    cases p with
    | nil => simp [countSub]
    | cons a q => simp [List.isPrefixOf] at h
  | cons a q => simp [countSub, h]

theorem countSub_ge_one (p a b : Str) : 1 ≤ countSub p (a ++ p ++ b) := by
  induction a with
  | nil =>
    apply countSub_pos_of_isPrefixOf
    rw [List.isPrefixOf_iff_prefix]
    simp
  | cons c q ih =>
    have hstep : countSub p ((c :: q) ++ p ++ b) =
        (if p.isPrefixOf (c :: (q ++ p ++ b)) then 1 else 0) + countSub p (q ++ p ++ b) := by
      simp [countSub]
    rw [hstep]
    exact le_trans ih (Nat.le_add_left _ _)

/-! ## Claim theorems for the stream reframer and token budgeter -/

/-- C1: any delivery of the upstream stream as whole newline-terminated
lines `goodLine` then `doneLine` — however those lines are grouped into
chunks — accumulates exactly the expected buffer, and the stream-end
handler resolves a 200 response whose body is that buffer. -/
theorem claim_C1 (css : List (List Str)) (h : css.flatten = [goodLine, doneLine]) :
    runStream (css.map joinNl) = expectedBuffer
    ∧ (successResponse expectedBuffer).statusCode = 200
    ∧ (successResponse expectedBuffer).body = expectedBuffer := by
  refine ⟨?_, rfl, rfl⟩
  have hnn : ∀ l ∈ css.flatten, '\n' ∉ l := by
    rw [h]
    intro l hl
    rcases hl with _ | ⟨_, hl2⟩
    · decide
    · rcases hl2 with _ | ⟨_, hl3⟩
      · decide
      · cases hl3
  rw [runStream_joinNl css hnn, h]
  decide

/-- C1 witness at the two-chunk grouping, one line per chunk. -/
theorem claim_C1_witness :
    List.flatten [[goodLine], [doneLine]] = [goodLine, doneLine]
    ∧ (runStream ([[goodLine], [doneLine]].map joinNl) = expectedBuffer
       ∧ (successResponse expectedBuffer).statusCode = 200
       ∧ (successResponse expectedBuffer).body = expectedBuffer) :=
  ⟨by simp, claim_C1 [[goodLine], [doneLine]] (by simp)⟩

/-- C2: the reframer processes every chunk independently — the stream
output is the concatenation of each chunk's own output, so no partial
line is ever reassembled across a chunk boundary — and for every interior
split point of the canonical content-carrying line, the split line's
content is absent: the buffer is exactly the `[DONE]` frame. -/
theorem claim_C2 :
    (∀ chunks : List Str, runStream chunks = (chunks.map chunkOut).flatten)
    ∧ ((List.range 45).all (fun j =>
        runStream [goodLine.take (j + 1),
          goodLine.drop (j + 1) ++ lit ("\n") ++ doneLine ++ lit ("\n")]
          == doneFrame)) = true :=
  ⟨runStream_flatten, by decide⟩

/-- C3 counterexample: content that itself begins with the truncation
marker keeps that copy in the head slice, so the marker occurs twice in
the truncated result, refuting the exactly-once conjunct of the claim. -/
theorem claim_C3_counterexample :
    ¬ countSub truncMarker (truncateContent oversizedContent 21) = 1 := by
  decide

/-- C3 amended: for over-budget content the result is exactly the first
`floor(maxTokens*4*0.6)` characters, the marker, then the last
`floor(maxTokens*4*0.2)` characters (tail starting at
`length - floor(maxTokens*4*0.2)`), and the marker occurs at least once
(not necessarily exactly once, since content may contain it). -/
theorem claim_C3_amended (content : Str) (maxTokens : Nat)
    (h : maxTokens < estimateTokens content) :
    truncateContent content maxTokens =
      content.take (maxTokens * 4 * 6 / 10) ++ truncMarker ++
        content.drop (content.length - maxTokens * 4 * 2 / 10)
    ∧ 1 ≤ countSub truncMarker (truncateContent content maxTokens) := by
  have heq : truncateContent content maxTokens =
      content.take (maxTokens * 4 * 6 / 10) ++ truncMarker ++
        content.drop (content.length - maxTokens * 4 * 2 / 10) := by
    unfold truncateContent
    rw [if_neg (Nat.not_le.mpr h)]
  refine ⟨heq, ?_⟩
  rw [heq, List.append_assoc]
  have := countSub_ge_one truncMarker (content.take (maxTokens * 4 * 6 / 10))
    (content.drop (content.length - maxTokens * 4 * 2 / 10))
  rw [List.append_assoc] at this
  exact this

/-- C3 amended witness at the oversized sample and budget 21. -/
theorem claim_C3_witness :
    21 < estimateTokens oversizedContent
    ∧ (truncateContent oversizedContent 21 =
        oversizedContent.take (21 * 4 * 6 / 10) ++ truncMarker ++
          oversizedContent.drop (oversizedContent.length - 21 * 4 * 2 / 10)
       ∧ 1 ≤ countSub truncMarker (truncateContent oversizedContent 21)) :=
  ⟨by decide, claim_C3_amended oversizedContent 21 (by decide)⟩

/-- C4: within-budget content is returned unchanged, and no truncation
marker appears unless the content already contained one. -/
theorem claim_C4 (content : Str) (maxTokens : Nat)
    (h : estimateTokens content ≤ maxTokens) :
    truncateContent content maxTokens = content
    ∧ (countSub truncMarker content = 0 →
        countSub truncMarker (truncateContent content maxTokens) = 0) := by
  have heq : truncateContent content maxTokens = content := by
    unfold truncateContent
    rw [if_pos h]
  exact ⟨heq, fun h0 => by rw [heq]; exact h0⟩

/-- C4 witness at a three-character content and budget 5. -/
theorem claim_C4_witness :
    estimateTokens (lit ("abc")) ≤ 5
    ∧ (truncateContent (lit ("abc")) 5 = lit ("abc")
       ∧ (countSub truncMarker (lit ("abc")) = 0 →
           countSub truncMarker (truncateContent (lit ("abc")) 5) = 0)) :=
  ⟨by decide, claim_C4 (lit ("abc")) 5 (by decide)⟩

/-! ## Token estimation claim -/

/-- C7: `estimateTokens` is the exact ceiling of length over four (a pure
function of the raw code-unit length), and the empty string maps to 0. -/
theorem claim_C7 :
    (∀ s : Str, (estimateTokens s : ℤ) = Int.ceil ((s.length : ℚ) / 4))
    ∧ estimateTokens [] = 0 := by
  constructor
  · intro s
    unfold estimateTokens
    obtain ⟨q, hq⟩ : ∃ q, (s.length + 3) / 4 = q := ⟨_, rfl⟩
    have k1 : s.length ≤ q * 4 := by omega
    have k2 : q * 4 < s.length + 4 := by omega
    rw [hq, eq_comm, Int.ceil_eq_iff]
    constructor
    · rw [lt_div_iff₀ (by norm_num : (0:ℚ) < 4)]
      have h2 : (q : ℚ) * 4 < (s.length : ℚ) + 4 := by exact_mod_cast k2
      push_cast
      linarith
    · rw [div_le_iff₀ (by norm_num : (0:ℚ) < 4)]
      have h1 : (s.length : ℚ) ≤ (q : ℚ) * 4 := by exact_mod_cast k1
      push_cast
      linarith
  · rfl

/-! ## CORS invariant -/

theorem handlerTry_ok_corsOk (ev : Event) (env : Env) (o : Outcome)
    (h : handlerTry ev env = Except.ok o) : corsOk o = true := by
  unfold handlerTry at h
  repeat' split at h
  all_goals first
    | exact Except.noConfusion h
    | (injection h with h2; rw [← h2]; rfl)

/-- C8: the CORS allow-origin header is present on the response of every
branch: preflight, parse error, prompt validation error, missing
credential, upstream non-200, success, stream error, transport error,
write error, and the outer catch-all; and every settled handler outcome
carries it. -/
theorem claim_C8 :
    (("Access-Control-Allow-Origin", "*") ∈ corsPreflightResponse.headers)
    ∧ (("Access-Control-Allow-Origin", "*") ∈ invalidJsonResponse.headers)
    ∧ (("Access-Control-Allow-Origin", "*") ∈ promptRequiredResponse.headers)
    ∧ (("Access-Control-Allow-Origin", "*") ∈ missingKeyResponse.headers)
    ∧ (∀ code ebody, ("Access-Control-Allow-Origin", "*") ∈ (upstreamErrorResponse code ebody).headers)
    ∧ (∀ buf, ("Access-Control-Allow-Origin", "*") ∈ (successResponse buf).headers)
    ∧ (∀ msg nm, ("Access-Control-Allow-Origin", "*") ∈ (streamErrorResponse msg nm).headers)
    ∧ (∀ msg nm code, ("Access-Control-Allow-Origin", "*") ∈ (transportErrorResponse msg nm code).headers)
    ∧ (∀ msg, ("Access-Control-Allow-Origin", "*") ∈ (writeErrorResponse msg).headers)
    ∧ (∀ e, ("Access-Control-Allow-Origin", "*") ∈ (catchAllResponse e).headers)
    ∧ (∀ ev env, corsOk (handler ev env) = true) := by
  refine ⟨by decide, by decide, by decide, by decide, ?_, ?_, ?_, ?_, ?_, ?_, ?_⟩
  · intro code ebody; simp [upstreamErrorResponse, jsonCorsHeaders]
  · intro buf; simp [successResponse]
  · intro msg nm; simp [streamErrorResponse, jsonCorsHeaders]
  · intro msg nm code; simp [transportErrorResponse, jsonCorsHeaders]
  · intro msg; simp [writeErrorResponse, jsonCorsHeaders]
  · intro e; simp [catchAllResponse, jsonCorsHeaders]
  intro ev env
  unfold handler
  by_cases hm : ev.httpMethod = "OPTIONS"
  · rw [if_pos hm]
    decide
  · rw [if_neg hm]
    rcases htry : handlerTry ev env with e | o
    · rfl
    · exact handlerTry_ok_corsOk ev env o htry

/-! ## Handler claims -/

/-- C5: a valid edit request (valid JSON body, non-blank string prompt,
string markdown, selectedText a string or absent) with no configured
credential settles on the 500 configuration-error response with the
generic message, and no outbound call is issued.  The credential check
happens only after validation, so the hypotheses pin the earlier steps. -/
theorem claim_C5 (ev : Event) (env : Env) (parsed : Json) (p m : Str)
    (hmethod : ev.httpMethod ≠ "OPTIONS")
    (hparse : parseJson (effectiveBody ev.body) = some parsed)
    (hprompt : jsonField parsed (lit ("prompt")) = some (Json.str p))
    (htrim : (trimJS p).isEmpty = false)
    (hmd : jsonField parsed (lit ("markdown")) = some (Json.str m))
    (hsel : jsonField parsed (lit ("selectedText")) = none
            ∨ ∃ s, jsonField parsed (lit ("selectedText")) = some (Json.str s))
    (hkey : env.openaiApiKey = none ∨ env.openaiApiKey = some []) :
    handler ev env = Outcome.response missingKeyResponse
    ∧ missingKeyResponse.statusCode = 500
    ∧ missingKeyResponse.body =
        lit ("\x7b\"error\":\"Server configuration error\",\"details\":\"API key not configured\"\x7d")
    ∧ ∀ c, handler ev env ≠ Outcome.network c := by
  have htry : handlerTry ev env = Except.ok (Outcome.response missingKeyResponse) := by
    cases parsed with
    | null => simp [jsonField] at hprompt
    | bool b => simp [jsonField] at hprompt
    | num n => simp [jsonField] at hprompt
    | str s => simp [jsonField] at hprompt
    | arr xs => simp [jsonField] at hprompt
    | obj ms =>
      rcases hsel with hs | ⟨s, hs⟩
      · rcases hkey with hk | hk <;>
          simp [handlerTry, hparse, hprompt, promptCheck, htrim, hmd, markdownEval,
            hs, selectedEval, hk]
      · cases hts : (trimJS s).isEmpty <;> rcases hkey with hk | hk <;>
          simp [handlerTry, hparse, hprompt, promptCheck, htrim, hmd, markdownEval,
            hs, selectedEval, hts, hk]
  have hmain : handler ev env = Outcome.response missingKeyResponse := by
    unfold handler
    rw [if_neg hmethod, htry]
  exact ⟨hmain, rfl, rfl, fun c hc => by rw [hmain] at hc; exact Outcome.noConfusion hc⟩

/-- C5 witness at a concrete valid request and an empty environment. -/
theorem claim_C5_witness :
    (postEvent (some sampleBody)).httpMethod ≠ "OPTIONS"
    ∧ parseJson (effectiveBody (postEvent (some sampleBody)).body) = some sampleParsed
    ∧ jsonField sampleParsed (lit ("prompt")) = some (Json.str (lit ("hi")))
    ∧ (trimJS (lit ("hi"))).isEmpty = false
    ∧ jsonField sampleParsed (lit ("markdown")) = some (Json.str (lit ("doc")))
    ∧ envNoKey.openaiApiKey = none
    ∧ (handler (postEvent (some sampleBody)) envNoKey = Outcome.response missingKeyResponse
       ∧ missingKeyResponse.statusCode = 500
       ∧ missingKeyResponse.body =
           lit ("\x7b\"error\":\"Server configuration error\",\"details\":\"API key not configured\"\x7d")
       ∧ ∀ c, handler (postEvent (some sampleBody)) envNoKey ≠ Outcome.network c) :=
  ⟨by decide, by rfl, by rfl, by rfl, by rfl, rfl,
    claim_C5 (postEvent (some sampleBody)) envNoKey sampleParsed (lit ("hi")) (lit ("doc"))
      (by decide) (by rfl) (by rfl) (by rfl) (by rfl) (Or.inl (by rfl)) (Or.inl rfl)⟩

/-- C6: valid JSON whose prompt is a string that is empty or whitespace
only settles on the 400 prompt-required response, with no outbound call. -/
theorem claim_C6 (ev : Event) (env : Env) (parsed : Json) (p : Str)
    (hmethod : ev.httpMethod ≠ "OPTIONS")
    (hparse : parseJson (effectiveBody ev.body) = some parsed)
    (hprompt : jsonField parsed (lit ("prompt")) = some (Json.str p))
    (htrim : trimJS p = []) :
    handler ev env = Outcome.response promptRequiredResponse
    ∧ promptRequiredResponse.statusCode = 400
    ∧ promptRequiredResponse.body = lit ("\x7b\"error\":\"Prompt is required\"\x7d")
    ∧ ∀ c, handler ev env ≠ Outcome.network c := by
  have htry : handlerTry ev env = Except.ok (Outcome.response promptRequiredResponse) := by
    cases parsed with
    | null => simp [jsonField] at hprompt
    | bool b => simp [jsonField] at hprompt
    | num n => simp [jsonField] at hprompt
    | str s => simp [jsonField] at hprompt
    | arr xs => simp [jsonField] at hprompt
    | obj ms => simp [handlerTry, hparse, hprompt, promptCheck, htrim]
  have hmain : handler ev env = Outcome.response promptRequiredResponse := by
    unfold handler
    rw [if_neg hmethod, htry]
  exact ⟨hmain, rfl, rfl, fun c hc => by rw [hmain] at hc; exact Outcome.noConfusion hc⟩

/-- C6 witness at a whitespace-only prompt. -/
theorem claim_C6_witness :
    (postEvent (some blankPromptBody)).httpMethod ≠ "OPTIONS"
    ∧ parseJson (effectiveBody (postEvent (some blankPromptBody)).body) = some blankPromptParsed
    ∧ jsonField blankPromptParsed (lit ("prompt")) = some (Json.str (lit ("  ")))
    ∧ trimJS (lit ("  ")) = []
    ∧ (handler (postEvent (some blankPromptBody)) envWithKey = Outcome.response promptRequiredResponse
       ∧ promptRequiredResponse.statusCode = 400
       ∧ promptRequiredResponse.body = lit ("\x7b\"error\":\"Prompt is required\"\x7d")
       ∧ ∀ c, handler (postEvent (some blankPromptBody)) envWithKey ≠ Outcome.network c) :=
  ⟨by decide, by rfl, by rfl, by rfl,
    claim_C6 (postEvent (some blankPromptBody)) envWithKey blankPromptParsed (lit ("  "))
      (by decide) (by rfl) (by rfl) (by rfl)⟩

/-- C9: valid JSON with a non-blank string prompt but no markdown field
does not produce a 400: `estimateTokens(markdown)` throws a TypeError on
`.length` of `undefined`, the outer catch converts it to a 500 whose body
carries the generic internal-error message plus the failure's name,
message and stack. -/
theorem claim_C9 (ev : Event) (env : Env) (parsed : Json) (p : Str)
    (hmethod : ev.httpMethod ≠ "OPTIONS")
    (hparse : parseJson (effectiveBody ev.body) = some parsed)
    (hprompt : jsonField parsed (lit ("prompt")) = some (Json.str p))
    (htrim : (trimJS p).isEmpty = false)
    (hmd : jsonField parsed (lit ("markdown")) = none) :
    handler ev env = Outcome.response (catchAllResponse typeErrorLengthUndefined)
    ∧ (catchAllResponse typeErrorLengthUndefined).statusCode = 500
    ∧ containsSub (lit ("Internal server error")) (catchAllResponse typeErrorLengthUndefined).body = true
    ∧ containsSub typeErrorLengthUndefined.name (catchAllResponse typeErrorLengthUndefined).body = true
    ∧ containsSub typeErrorLengthUndefined.message (catchAllResponse typeErrorLengthUndefined).body = true
    ∧ containsSub typeErrorLengthUndefined.stack (catchAllResponse typeErrorLengthUndefined).body = true
    ∧ handler ev env ≠ Outcome.response promptRequiredResponse := by
  have htry : handlerTry ev env = Except.error typeErrorLengthUndefined := by
    cases parsed with
    | null => simp [jsonField] at hprompt
    | bool b => simp [jsonField] at hprompt
    | num n => simp [jsonField] at hprompt
    | str s => simp [jsonField] at hprompt
    | arr xs => simp [jsonField] at hprompt
    | obj ms =>
      simp [handlerTry, hparse, hprompt, promptCheck, htrim, hmd, markdownEval]
  have hmain : handler ev env = Outcome.response (catchAllResponse typeErrorLengthUndefined) := by
    unfold handler
    rw [if_neg hmethod, htry]
  refine ⟨hmain, rfl, by decide, by decide, by decide, by decide, ?_⟩
  rw [hmain]
  intro hc
  injection hc with h2
  exact absurd h2 (by decide)

/-- C9 witness at a body missing the markdown field. -/
theorem claim_C9_witness :
    (postEvent (some noMarkdownBody)).httpMethod ≠ "OPTIONS"
    ∧ parseJson (effectiveBody (postEvent (some noMarkdownBody)).body) = some noMarkdownParsed
    ∧ jsonField noMarkdownParsed (lit ("prompt")) = some (Json.str (lit ("hi")))
    ∧ (trimJS (lit ("hi"))).isEmpty = false
    ∧ jsonField noMarkdownParsed (lit ("markdown")) = none
    ∧ (handler (postEvent (some noMarkdownBody)) envWithKey
         = Outcome.response (catchAllResponse typeErrorLengthUndefined)
       ∧ (catchAllResponse typeErrorLengthUndefined).statusCode = 500
       ∧ containsSub (lit ("Internal server error")) (catchAllResponse typeErrorLengthUndefined).body = true
       ∧ containsSub typeErrorLengthUndefined.name (catchAllResponse typeErrorLengthUndefined).body = true
       ∧ containsSub typeErrorLengthUndefined.message (catchAllResponse typeErrorLengthUndefined).body = true
       ∧ containsSub typeErrorLengthUndefined.stack (catchAllResponse typeErrorLengthUndefined).body = true
       ∧ handler (postEvent (some noMarkdownBody)) envWithKey ≠ Outcome.response promptRequiredResponse) :=
  ⟨by decide, by rfl, by rfl, by rfl, by rfl,
    claim_C9 (postEvent (some noMarkdownBody)) envWithKey noMarkdownParsed (lit ("hi"))
      (by decide) (by rfl) (by rfl) (by rfl) (by rfl)⟩

/-- C10: an absent, null or empty body falls back to the literal object
text before parsing, so the handler does not return the invalid-JSON 400;
it returns the 400 prompt-required response instead. -/
theorem claim_C10 (ev : Event) (env : Env)
    (hmethod : ev.httpMethod ≠ "OPTIONS")
    (hbody : ev.body = none ∨ ev.body = some []) :
    handler ev env = Outcome.response promptRequiredResponse
    ∧ handler ev env ≠ Outcome.response invalidJsonResponse
    ∧ promptRequiredResponse.statusCode = 400
    ∧ promptRequiredResponse.body = lit ("\x7b\"error\":\"Prompt is required\"\x7d") := by
  have hp2 : parseJson (effectiveBody ev.body) = some (Json.obj []) := by
    rcases hbody with hb | hb <;> simp [effectiveBody, hb] <;> rfl
  have htry : handlerTry ev env = Except.ok (Outcome.response promptRequiredResponse) := by
    simp [handlerTry, hp2, jsonField, lookupLast, promptCheck]
  have hmain : handler ev env = Outcome.response promptRequiredResponse := by
    unfold handler
    rw [if_neg hmethod, htry]
  refine ⟨hmain, ?_, rfl, rfl⟩
  rw [hmain]
  intro hc
  injection hc with h2
  exact absurd h2 (by decide)

/-- C10 witness at an absent body. -/
theorem claim_C10_witness :
    (postEvent none).httpMethod ≠ "OPTIONS"
    ∧ (postEvent none).body = none
    ∧ (handler (postEvent none) envWithKey = Outcome.response promptRequiredResponse
       ∧ handler (postEvent none) envWithKey ≠ Outcome.response invalidJsonResponse
       ∧ promptRequiredResponse.statusCode = 400
       ∧ promptRequiredResponse.body = lit ("\x7b\"error\":\"Prompt is required\"\x7d")) :=
  ⟨by decide, rfl,
    claim_C10 (postEvent none) envWithKey (by decide) (Or.inl rfl)⟩
